import Mathlib

/-!
Shallow embedding of the client-side script of the portfolio site
(scroll-driven navigation highlighting, sticky header, footer reveal,
contact-form submission) and of the staircase route-transition component.

The scroll handler iterates over all page sections; for a section whose
interval test succeeds it loops over the nav links, removing the active
class from each and adding it to the first link returned by a substring
attribute selector.  When the selector finds no link, the DOM call throws,
which we model with an Except value carrying the partially updated state.
-/

/-- Character-list test: does the second list occur as a leading segment of
the first list.  Used to build the substring semantics of the CSS
attribute selector. -/
def leadsWith : List Char → List Char → Bool
  | [], _ => true
  | _ :: _, [] => false
  | c :: cs, d :: ds => (c == d) && leadsWith cs ds

/-- Does the list given second occur contiguously inside the list given
first. -/
def containsChars : List Char → List Char → Bool
  | [], need => leadsWith need []
  | c :: rest, need => leadsWith need (c :: rest) || containsChars rest need

/-- Substring containment on strings: the semantics of the CSS attribute
operator used in the selector of the scroll handler, which matches an
element whose attribute value contains the given value as a substring. -/
def strContains (hay need : String) : Bool :=
  containsChars hay.data need.data

/-- A page section as the scroll handler sees it: its id attribute, its
offsetTop, its offsetHeight, and whether it currently carries the
show-animate class. -/
structure SectionEl where
  id : String
  offsetTop : Int
  offsetHeight : Int
  showAnimate : Bool
deriving DecidableEq

/-- A navigation link inside the page header: its href attribute and
whether it currently carries the active class. -/
structure NavLink where
  href : String
  active : Bool
deriving DecidableEq

/-- The href attributes of a list of nav links, in document order. -/
def hrefs (links : List NavLink) : List String :=
  links.map NavLink.href

/-- The interval test of the scroll handler for one section:
top >= offset && top < offset + height, with offset = offsetTop - 100. -/
def sectionMatches (scrollY : Int) (sec : SectionEl) : Bool :=
  decide (scrollY ≥ sec.offsetTop - 100) &&
    decide (scrollY < sec.offsetTop - 100 + sec.offsetHeight)

/-- The selector query over the nav-link hrefs: index of the first link
whose href contains the section id as a substring, if any.  This is the
document-order semantics of querySelector with the substring attribute
operator. -/
def querySelectorNav (id : String) : List String → Option Nat
  | [] => none
  | href :: rest =>
    if strContains href id then some 0
    else (querySelectorNav id rest).map (fun t => t + 1)

/-- Overwrite the active flag of the link at the given index, leaving all
other links untouched (classList add or remove on one element). -/
def setActive : List NavLink → Nat → Bool → List NavLink
  | [], _, _ => []
  | l :: ls, 0, b => { href := l.href, active := b } :: ls
  | l :: ls, k + 1, b => l :: setActive ls k b

/-- One pass of the inner forEach over the nav links, iterating the index k
for the given number of remaining iterations: remove the active class from
link k, then query the selector and add the active class to the returned
link; when the query returns nothing the DOM call throws, and the error
value records the state of the links at that point. -/
def navLoopGo (id : String) : Nat → List NavLink → Nat →
    Except (List NavLink) (List NavLink)
  | _, links, 0 => .ok links
  | k, links, r + 1 =>
    let links1 := setActive links k false
    match querySelectorNav id (hrefs links1) with
    | some t => navLoopGo id (k + 1) (setActive links1 t true) r
    | none => .error links1

/-- The inner forEach over the nav links run by the scroll handler for a
matching section with the given id. -/
def navLoop (id : String) (links : List NavLink) :
    Except (List NavLink) (List NavLink) :=
  navLoopGo id 0 links links.length

/-- The forEach over the sections: a matching section runs the nav-link
loop and then adds the show-animate class to itself; a non-matching
section removes the class.  A throw inside the nav-link loop aborts the
whole handler, leaving the remaining sections untouched. -/
def runSections (s : Int) : List NavLink → List SectionEl →
    Except (List NavLink × List SectionEl) (List NavLink × List SectionEl)
  | links, [] => .ok (links, [])
  | links, sec :: rest =>
    if sectionMatches s sec then
      match navLoop sec.id links with
      | .ok links1 =>
        match runSections s links1 rest with
        | .ok (links2, rest2) =>
          .ok (links2, { sec with showAnimate := true } :: rest2)
        | .error (links2, rest2) =>
          .error (links2, { sec with showAnimate := true } :: rest2)
      | .error links1 => .error (links1, sec :: rest)
    else
      match runSections s links rest with
      | .ok (links2, rest2) =>
        .ok (links2, { sec with showAnimate := false } :: rest2)
      | .error (links2, rest2) =>
        .error (links2, { sec with showAnimate := false } :: rest2)

/-- The DOM state the script manipulates: the sections, the nav links, the
sticky class on the header, the show-animate class on the footer, and the
two classes toggled by the menu icon. -/
structure Dom where
  sections : List SectionEl
  navlinks : List NavLink
  sticky : Bool
  footerShow : Bool
  menuX : Bool
  navbarActive : Bool
deriving DecidableEq

/-- The window scroll handler: run the section loop; on normal completion
toggle the sticky class on the header by the threshold test, clear the two
menu classes, and toggle the footer show-animate class by the
bottom-of-page test.  A throw inside the section loop propagates, leaving
the header, menu and footer untouched. -/
def onscroll (scrollY innerHeight scrollHeight : Int) (d : Dom) :
    Except Dom Dom :=
  match runSections scrollY d.navlinks d.sections with
  | .error (links1, secs1) =>
    .error { d with navlinks := links1, sections := secs1 }
  | .ok (links1, secs1) =>
    .ok { d with
      navlinks := links1
      sections := secs1
      sticky := decide (scrollY > 100)
      menuX := false
      navbarActive := false
      footerShow := decide (innerHeight + scrollY ≥ scrollHeight) }

/-- The click handler of the menu icon: toggle both classes. -/
def menuClick (d : Dom) : Dom :=
  { d with menuX := !d.menuX, navbarActive := !d.navbarActive }

/-! ### Contact-form submission -/

/-- The five form fields read by the submit flow. -/
structure FormState where
  name : String
  email : String
  number : String
  message : String
  subject : String
deriving DecidableEq

/-- The message body template built by SendEmail from the current field
values (the template literal contains a line break and indentation between
the Email label and its value). -/
def bodyMassage (f : FormState) : String :=
  "Full Name: " ++ f.name ++ "<br> Email:\n    " ++ f.email ++
    "<br> Number : " ++ f.number ++ "<br> Message: " ++ f.message

/-- The field values after form.reset(): all fields cleared. -/
def resetFields : FormState :=
  { name := "", email := "", number := "", message := "", subject := "" }

/-- Observable events of the submission flow, in the order they occur. -/
inductive FormEvent where
  | send (subject body : String)
  | reset
  | notifySuccess
deriving DecidableEq

/-- The page state relevant to the form flow: the field values and whether
the success notification has been shown. -/
structure PageState where
  fields : FormState
  notificationShown : Bool
deriving DecidableEq

/-- The completion callback attached to the relay call: fire the success
notification exactly when the received message equals OK. -/
def relayCallback (message : String) (st : PageState) :
    List FormEvent × PageState :=
  if message == "OK" then
    ([FormEvent.notifySuccess], { st with notificationShown := true })
  else ([], st)

/-- The full submission flow: the submit listener calls SendEmail, which
builds the payload from the current field values and starts the relay
call, then resets the form synchronously; the relay completes afterwards
with the given response and runs the completion callback. -/
def submitAndComplete (st : PageState) (response : String) :
    List FormEvent × PageState :=
  let e1 := FormEvent.send st.fields.subject (bodyMassage st.fields)
  let st1 := { st with fields := resetFields }
  let (evs, st2) := relayCallback response st1
  (e1 :: FormEvent.reset :: evs, st2)

/-! ### Staircase route transition -/

/-- The fixed number of stair panels. -/
def totalSteps : Int := 6

/-- The reverse index used for the stagger delay. -/
def reverseIndex (index : Int) : Int :=
  totalSteps - index - 1

/-- The transition configuration passed to each motion div. -/
structure TransitionCfg where
  duration : ℚ
  ease : String
  delay : ℚ
deriving DecidableEq

/-- The transition of the stair panel at the given index. -/
def stairTransition (index : Int) : TransitionCfg :=
  { duration := 0.4
    ease := "easeInOut"
    delay := (reverseIndex index : ℚ) * 0.1 }

/-- The six stair panels rendered by the component, in index order. -/
def stairsSteps : List TransitionCfg :=
  (List.range 6).map (fun i => stairTransition (i : Int))

/-! ### Derived notions used to state the scroll-handler theorems -/

/-- Mark exactly the link at absolute index t as active, walking the list
with the running index i. -/
def markFrom (t : Nat) : Nat → List NavLink → List NavLink
  | _, [] => []
  | i, l :: ls => { href := l.href, active := decide (i = t) } :: markFrom t (i + 1) ls

/-- The nav-link state produced by a completed inner forEach whose
selector query returned index t: link t active, all others cleared. -/
def navResult (links : List NavLink) (t : Nat) : List NavLink :=
  markFrom t 0 links

/-- The last section of the list whose interval test succeeds, if any. -/
def lastMatching (s : Int) : List SectionEl → Option SectionEl
  | [] => none
  | sec :: rest =>
    match lastMatching s rest with
    | some x => some x
    | none => if sectionMatches s sec then some sec else none

/-- The nav-link state after a completed section loop: unchanged when no
section matches, otherwise determined by the id of the last matching
section. -/
def navAfter (s : Int) (secs : List SectionEl) (links : List NavLink) :
    List NavLink :=
  match lastMatching s secs with
  | none => links
  | some sec =>
    match querySelectorNav sec.id (hrefs links) with
    | some t => navResult links t
    | none => links

/-! ### Concrete states used in counterexamples and witnesses -/

/-- First section of the overlapping pair: interval [0, 200). -/
def secAA : SectionEl :=
  { id := "aa", offsetTop := 100, offsetHeight := 200, showAnimate := false }

/-- Second section of the overlapping pair: interval [50, 250). -/
def secBB : SectionEl :=
  { id := "bb", offsetTop := 150, offsetHeight := 200, showAnimate := false }

/-- Two sections whose intervals overlap, with one nav link each. -/
def cexDom1 : Dom :=
  { sections := [secAA, secBB]
    navlinks := [{ href := "#aa", active := false }, { href := "#bb", active := false }]
    sticky := false, footerShow := false, menuX := false, navbarActive := false }

/-- The state the scroll handler produces from cexDom1 at offset 60. -/
def cexDom1Out : Dom :=
  { sections := [{ secAA with showAnimate := true }, { secBB with showAnimate := true }]
    navlinks := [{ href := "#aa", active := false }, { href := "#bb", active := true }]
    sticky := false, footerShow := false, menuX := false, navbarActive := false }

/-- A section whose interval [900, 1000) misses scroll offset 0, with its
nav link currently active. -/
def secCC : SectionEl :=
  { id := "cc", offsetTop := 1000, offsetHeight := 100, showAnimate := true }

/-- A state in which no section matches offset 0 but a nav link is
active. -/
def cexDom3 : Dom :=
  { sections := [secCC]
    navlinks := [{ href := "#cc", active := true }]
    sticky := false, footerShow := false, menuX := false, navbarActive := false }

/-- The state the scroll handler produces from cexDom3 at offset 0. -/
def cexDom3Out : Dom :=
  { sections := [{ secCC with showAnimate := false }]
    navlinks := [{ href := "#cc", active := true }]
    sticky := false, footerShow := false, menuX := false, navbarActive := false }

/-- First section of a second overlapping pair: interval [0, 200). -/
def secDD : SectionEl :=
  { id := "dd", offsetTop := 100, offsetHeight := 200, showAnimate := false }

/-- Second section of the second overlapping pair: interval [50, 250). -/
def secEE : SectionEl :=
  { id := "ee", offsetTop := 150, offsetHeight := 200, showAnimate := false }

/-- Two sections whose intervals overlap, used for the marking-count
counterexample. -/
def cexDom4 : Dom :=
  { sections := [secDD, secEE]
    navlinks := [{ href := "#dd", active := false }, { href := "#ee", active := false }]
    sticky := false, footerShow := false, menuX := false, navbarActive := false }

/-- The state the scroll handler produces from cexDom4 at offset 60. -/
def cexDom4Out : Dom :=
  { sections := [{ secDD with showAnimate := true }, { secEE with showAnimate := true }]
    navlinks := [{ href := "#dd", active := false }, { href := "#ee", active := true }]
    sticky := false, footerShow := false, menuX := false, navbarActive := false }

/-- A section with id home, matching at offset 60. -/
def secHome : SectionEl :=
  { id := "home", offsetTop := 100, offsetHeight := 200, showAnimate := false }

/-- A state with a decoy link whose href contains the id home as a proper
substring, placed before the exact hash link. -/
def cexDom9 : Dom :=
  { sections := [secHome]
    navlinks := [{ href := "#homepage", active := false }, { href := "#home", active := false }]
    sticky := false, footerShow := false, menuX := false, navbarActive := false }

/-- The state the scroll handler produces from cexDom9 at offset 60: the
decoy link is the one activated. -/
def cexDom9Out : Dom :=
  { sections := [{ secHome with showAnimate := true }]
    navlinks := [{ href := "#homepage", active := true }, { href := "#home", active := false }]
    sticky := false, footerShow := false, menuX := false, navbarActive := false }

/-- A state with no sections and no nav links, used to instantiate the
header and footer theorems. -/
def wDom : Dom :=
  { sections := [], navlinks := []
    sticky := false, footerShow := false, menuX := false, navbarActive := false }

/-- The state the scroll handler produces from wDom at offset 101 with
viewport 800 and document height 2000. -/
def wOut101 : Dom :=
  { sections := [], navlinks := []
    sticky := true, footerShow := false, menuX := false, navbarActive := false }

/-- The state the scroll handler produces from wDom at offset 1200 with
viewport 800 and document height 2000. -/
def wOutFoot : Dom :=
  { sections := [], navlinks := []
    sticky := true, footerShow := true, menuX := false, navbarActive := false }

/-- A single matching section with its own nav link, used to instantiate
the general scroll-handler theorems. -/
def wDom1 : Dom :=
  { sections := [secAA]
    navlinks := [{ href := "#aa", active := false }]
    sticky := false, footerShow := false, menuX := false, navbarActive := false }

/-! ### Theorems -/

/-- Claim C5: the interval test of the scroll handler succeeds exactly when
the scroll offset lies in the half-open interval from top - 100
(inclusive) to top - 100 + height (exclusive). -/
theorem sectionMatches_iff_interval (s : Int) (sec : SectionEl) :
    sectionMatches s sec = true ↔
      sec.offsetTop - 100 ≤ s ∧ s < sec.offsetTop - 100 + sec.offsetHeight := by
  simp [sectionMatches, ge_iff_le]

/-- Claim C6: whenever the scroll handler completes normally, the sticky
class on the header is set exactly when the scroll offset exceeds 100; in
particular it is clear at offset 100 and set at offset 101. -/
theorem onscroll_sticky (s ih sh : Int) (d d' : Dom)
    (h : onscroll s ih sh d = .ok d') :
    (d'.sticky = true ↔ s > 100) ∧
      (s = 100 → d'.sticky = false) ∧ (s = 101 → d'.sticky = true) := by
  cases hr : runSections s d.navlinks d.sections with
  | error p => rw [onscroll, hr] at h; exact absurd h (by simp)
  | ok p =>
    obtain ⟨links1, secs1⟩ := p
    rw [onscroll, hr] at h
    injection h with h
    subst h
    refine ⟨by simp, fun hs => ?_, fun hs => ?_⟩ <;> subst hs <;> rfl

/-- Claim C6 witness at scroll offsets 101 and 100. -/
theorem onscroll_sticky_witness :
    (wOut101.sticky = true ↔ (101 : Int) > 100) ∧
      ((101 : Int) = 100 → wOut101.sticky = false) ∧
      ((101 : Int) = 101 → wOut101.sticky = true) :=
  onscroll_sticky 101 800 2000 wDom wOut101 rfl

/-- Claim C7: whenever the scroll handler completes normally, the
show-animate class on the footer is set exactly when viewport height plus
scroll offset reaches the document scroll height, inclusively at
equality. -/
theorem onscroll_footer (s ih sh : Int) (d d' : Dom)
    (h : onscroll s ih sh d = .ok d') :
    d'.footerShow = true ↔ ih + s ≥ sh := by
  cases hr : runSections s d.navlinks d.sections with
  | error p => rw [onscroll, hr] at h; exact absurd h (by simp)
  | ok p =>
    obtain ⟨links1, secs1⟩ := p
    rw [onscroll, hr] at h
    injection h with h
    subst h
    simp

/-- Claim C7 witness: viewport 800, offset 1200, document height 2000. -/
theorem onscroll_footer_witness :
    wOutFoot.footerShow = true ↔ (800 : Int) + 1200 ≥ 2000 :=
  onscroll_footer 1200 800 2000 wDom wOutFoot rfl

/-- Claim C2: the success notification fires exactly when the completion
callback receives the literal response OK, and the submission flow leaves
all form fields cleared. -/
theorem submit_notify_iff (st : PageState) (resp : String) :
    (FormEvent.notifySuccess ∈ (submitAndComplete st resp).1 ↔ resp = "OK") ∧
      (submitAndComplete st resp).2.fields = resetFields := by
  unfold submitAndComplete relayCallback
  by_cases h : resp = "OK" <;> simp [h]

/-- Claim C10: on every submission the send event carries the subject and
the body built from the field values at submission time, the reset event
follows it immediately and unconditionally, any callback event comes only
after both, and the fields end cleared for every relay response. -/
theorem submit_reset_order (st : PageState) (resp : String) :
    (∃ evs, (submitAndComplete st resp).1 =
        FormEvent.send st.fields.subject (bodyMassage st.fields) ::
          FormEvent.reset :: evs) ∧
      (submitAndComplete st resp).2.fields = resetFields := by
  unfold submitAndComplete relayCallback
  by_cases h : resp = "OK" <;> simp [h]

/-- Claim C8: every stair panel has duration 0.4 and delay
(totalSteps - 1 - index) times 0.1, the delay is strictly decreasing in
the panel index, panel 0 has the largest delay 0.5 and the last panel has
delay 0. -/
theorem stairTransition_delay (i j : Int) (h0 : 0 ≤ i) (hij : i < j)
    (hj : j < 6) :
    (stairTransition i).duration = 0.4 ∧
      (stairTransition i).delay = ((totalSteps - 1 - i : Int) : ℚ) * 0.1 ∧
      (stairTransition j).delay < (stairTransition i).delay ∧
      (stairTransition 0).delay = 0.5 ∧
      (stairTransition (totalSteps - 1)).delay = 0 := by
  refine ⟨rfl, ?_, ?_, by norm_num [stairTransition, reverseIndex, totalSteps],
    by norm_num [stairTransition, reverseIndex, totalSteps]⟩
  · simp only [stairTransition, reverseIndex, totalSteps]
    push_cast
    ring
  · have hij' : (i : ℚ) < (j : ℚ) := by exact_mod_cast hij
    simp only [stairTransition, reverseIndex, totalSteps]
    push_cast
    nlinarith [hij']

/-- Claim C8 witness at panel indices 1 and 3. -/
theorem stairTransition_delay_witness :
    (stairTransition 1).duration = 0.4 ∧
      (stairTransition 1).delay = ((totalSteps - 1 - 1 : Int) : ℚ) * 0.1 ∧
      (stairTransition 3).delay < (stairTransition 1).delay ∧
      (stairTransition 0).delay = 0.5 ∧
      (stairTransition (totalSteps - 1)).delay = 0 :=
  stairTransition_delay 1 3 (by decide) (by decide) (by decide)

/-- Claim C1 counterexample: at scroll offset 60 both sections of cexDom1
match, the first matching section in document order is secAA, yet after
the handler its nav link is inactive and the link of the later matching
section is the active one. -/
theorem onscroll_first_match_cex :
    sectionMatches 60 secAA = true ∧ sectionMatches 60 secBB = true ∧
      cexDom1.sections = [secAA, secBB] ∧
      onscroll 60 800 2000 cexDom1 = .ok cexDom1Out ∧
      cexDom1Out.navlinks =
        [{ href := "#aa", active := false }, { href := "#bb", active := true }] :=
  ⟨rfl, rfl, rfl, rfl, rfl⟩

/-- Claim C3 counterexample: at scroll offset 0 the only section of
cexDom3 fails its interval test, yet after the handler its nav link still
carries the active class; only the section indicator is cleared. -/
theorem onscroll_nomatch_cex :
    sectionMatches 0 secCC = false ∧
      cexDom3.sections = [secCC] ∧
      cexDom3.navlinks = [{ href := "#cc", active := true }] ∧
      onscroll 0 800 2000 cexDom3 = .ok cexDom3Out ∧
      cexDom3Out.navlinks = [{ href := "#cc", active := true }] ∧
      cexDom3Out.sections = [{ secCC with showAnimate := false }] :=
  ⟨rfl, rfl, rfl, rfl, rfl, rfl⟩

/-- Claim C4 counterexample: at scroll offset 60 both sections of cexDom4
match, and after the handler both carry the show-animate class, so two
sections are marked at once. -/
theorem onscroll_two_marked_cex :
    sectionMatches 60 secDD = true ∧ sectionMatches 60 secEE = true ∧
      onscroll 60 800 2000 cexDom4 = .ok cexDom4Out ∧
      cexDom4Out.sections.countP (fun sec => sec.showAnimate) = 2 :=
  ⟨rfl, rfl, rfl, rfl⟩

/-- Claim C9 counterexample: the id home of the matching section is
matched by substring containment, so the decoy link with href
containing home as a proper substring is selected and activated, while
the link whose hash target equals the id exactly stays inactive. -/
theorem onscroll_substring_cex :
    sectionMatches 60 secHome = true ∧
      strContains "#homepage" "home" = true ∧
      strContains "#home" "home" = true ∧
      onscroll 60 800 2000 cexDom9 = .ok cexDom9Out ∧
      cexDom9Out.navlinks =
        [{ href := "#homepage", active := true }, { href := "#home", active := false }] :=
  ⟨rfl, rfl, rfl, rfl, rfl⟩

/-! ### Structural lemmas about the nav-link loop -/

theorem hrefs_nil : hrefs [] = [] := rfl

theorem hrefs_cons (l : NavLink) (ls : List NavLink) :
    hrefs (l :: ls) = l.href :: hrefs ls := rfl

theorem hrefs_length (ls : List NavLink) : (hrefs ls).length = ls.length :=
  List.length_map ls NavLink.href

theorem setActive_length (ls : List NavLink) (k : Nat) (b : Bool) :
    (setActive ls k b).length = ls.length := by
  induction ls generalizing k with
  | nil => rfl
  | cons l ls ih => cases k <;> simp [setActive, ih]

theorem hrefs_setActive (ls : List NavLink) (k : Nat) (b : Bool) :
    hrefs (setActive ls k b) = hrefs ls := by
  induction ls generalizing k with
  | nil => rfl
  | cons l ls ih => cases k <;> simp [setActive, hrefs_cons, ih]

theorem setActive_getElem? (ls : List NavLink) (k : Nat) (b : Bool) (i : Nat) :
    (setActive ls k b)[i]? =
      if i = k then (ls[i]?).map (fun l => { href := l.href, active := b })
      else ls[i]? := by
  induction ls generalizing k i with
  | nil => simp [setActive]
  | cons l ls ih =>
    cases k with
    | zero =>
      cases i with
      | zero => simp [setActive]
      | succ i => simp [setActive]
    | succ k =>
      cases i with
      | zero => simp [setActive]
      | succ i => simpa [setActive] using ih k i

theorem markFrom_getElem? (t : Nat) (ls : List NavLink) (i0 i : Nat) :
    (markFrom t i0 ls)[i]? =
      (ls[i]?).map (fun l => { href := l.href, active := decide (i0 + i = t) }) := by
  induction ls generalizing i0 i with
  | nil => simp [markFrom]
  | cons l ls ih =>
    cases i with
    | zero => simp [markFrom]
    | succ i =>
      have h : i0 + 1 + i = i0 + (i + 1) := by omega
      simpa [markFrom, h] using ih (i0 + 1) i

theorem navResult_getElem? (links : List NavLink) (t i : Nat) :
    (navResult links t)[i]? =
      (links[i]?).map (fun l => { href := l.href, active := decide (i = t) }) := by
  simpa [navResult] using markFrom_getElem? t links 0 i

theorem markFrom_length (t i0 : Nat) (ls : List NavLink) :
    (markFrom t i0 ls).length = ls.length := by
  induction ls generalizing i0 with
  | nil => rfl
  | cons l ls ih => simp [markFrom, ih]

theorem navResult_length (links : List NavLink) (t : Nat) :
    (navResult links t).length = links.length :=
  markFrom_length t 0 links

theorem hrefs_markFrom (t i0 : Nat) (ls : List NavLink) :
    hrefs (markFrom t i0 ls) = hrefs ls := by
  induction ls generalizing i0 with
  | nil => rfl
  | cons l ls ih => simp [markFrom, hrefs_cons, ih]

theorem hrefs_navResult (links : List NavLink) (t : Nat) :
    hrefs (navResult links t) = hrefs links :=
  hrefs_markFrom t 0 links

theorem navResult_navResult (links : List NavLink) (t t' : Nat) :
    navResult (navResult links t) t' = navResult links t' := by
  apply List.ext_getElem?
  intro i
  simp [navResult_getElem?, Option.map_map]
  cases links[i]? <;> rfl

theorem querySelectorNav_some_lt (id : String) (hs : List String) (t : Nat)
    (h : querySelectorNav id hs = some t) : t < hs.length := by
  induction hs generalizing t with
  | nil => simp [querySelectorNav] at h
  | cons hd tl ih =>
    by_cases hc : strContains hd id = true
    · simp [querySelectorNav, hc] at h
      simp only [List.length_cons]
      omega
    · simp [querySelectorNav, hc, Option.map_eq_some'] at h
      obtain ⟨t', ht', rfl⟩ := h
      have := ih t' ht'
      simp only [List.length_cons]
      omega

theorem querySelectorNav_spec (id : String) (hs : List String) (t : Nat)
    (h : querySelectorNav id hs = some t) :
    (∃ hx, hs[t]? = some hx ∧ strContains hx id = true) ∧
      ∀ j, j < t → ∀ hx, hs[j]? = some hx → strContains hx id = false := by
  induction hs generalizing t with
  | nil => simp [querySelectorNav] at h
  | cons hd tl ih =>
    by_cases hc : strContains hd id = true
    · simp [querySelectorNav, hc] at h
      subst h
      exact ⟨⟨hd, by simp, hc⟩, fun j hj => by omega⟩
    · simp [querySelectorNav, hc, Option.map_eq_some'] at h
      obtain ⟨t', ht', rfl⟩ := h
      obtain ⟨⟨hx, hhx, hsx⟩, hfst⟩ := ih t' ht'
      refine ⟨⟨hx, by simpa using hhx, hsx⟩, ?_⟩
      intro j hj hy hhy
      cases j with
      | zero =>
        simp at hhy
        subst hhy
        simpa using hc
      | succ j =>
        simp at hhy
        exact hfst j (by omega) hy hhy

theorem navLoopGo_ok (id : String) (t : Nat) :
    ∀ (r k : Nat) (links : List NavLink),
      querySelectorNav id (hrefs links) = some t →
      ∃ L, navLoopGo id k links (r + 1) = .ok L ∧
        hrefs L = hrefs links ∧
        ∀ i l0, links[i]? = some l0 →
          L[i]? = some ({ href := l0.href,
                          active := decide (i = t) ||
                            (decide (i < k ∨ k + (r + 1) ≤ i) && l0.active) } : NavLink) := by
  intro r
  induction r with
  | zero =>
    intro k links hq
    refine ⟨setActive (setActive links k false) t true, ?_, ?_, ?_⟩
    · simp [navLoopGo, hrefs_setActive, hq]
    · simp [hrefs_setActive]
    · intro i l0 h0
      rw [setActive_getElem?, setActive_getElem?, h0]
      by_cases hit : i = t
      · subst hit
        by_cases hik : i = k <;> simp [hik]
      · by_cases hik : i = k
        · subst hik
          have hr : ¬(i < i ∨ i + (0 + 1) ≤ i) := by omega
          simp [hit, hr]
        · have hr : i < k ∨ k + (0 + 1) ≤ i := by omega
          simp [hit, hik, hr]
  | succ r ih =>
    intro k links hq
    obtain ⟨L, hL, hhr, hpt⟩ :=
      ih (k + 1) (setActive (setActive links k false) t true)
        (by simp [hrefs_setActive, hq])
    refine ⟨L, ?_, ?_, ?_⟩
    · rw [navLoopGo]
      simp only [hrefs_setActive, hq]
      exact hL
    · rw [hhr]
      simp [hrefs_setActive]
    · intro i l0 h0
      have h2 : (setActive (setActive links k false) t true)[i]? =
          some ({ href := l0.href,
                  active := decide (i = t) || (decide (i ≠ k) && l0.active) } : NavLink) := by
        rw [setActive_getElem?, setActive_getElem?, h0]
        by_cases hit : i = t
        · subst hit
          by_cases hik : i = k <;> simp [hik]
        · by_cases hik : i = k
          · subst hik
            simp [hit]
          · simp [hit, hik]
      have h3 := hpt i _ h2
      rw [h3]
      by_cases hit : i = t
      · simp [hit]
      · by_cases h4 : i < k ∨ k + (r + 1 + 1) ≤ i
        · have h5 : i < k + 1 ∨ k + 1 + (r + 1) ≤ i := by omega
          have h6 : i ≠ k := by omega
          simp [hit, h4, h5, h6]
        · by_cases hik : i = k
          · subst hik
            simp [hit, h4]
          · have h5 : ¬(i < k + 1 ∨ k + 1 + (r + 1) ≤ i) := by omega
            simp [hit, h4, h5, hik]

theorem navLoop_ok (id : String) (links : List NavLink) (t : Nat)
    (hlen : 0 < links.length) (hq : querySelectorNav id (hrefs links) = some t) :
    navLoop id links = .ok (navResult links t) := by
  obtain ⟨n, hn⟩ : ∃ n, links.length = n + 1 := ⟨links.length - 1, by omega⟩
  obtain ⟨L, hL, hhr, hpt⟩ := navLoopGo_ok id t n 0 links hq
  rw [navLoop, hn, hL]
  congr 1
  have hlenL : L.length = links.length := by
    have := congrArg List.length hhr
    simpa [hrefs_length] using this
  apply List.ext_getElem?
  intro i
  rw [navResult_getElem?]
  by_cases hi : i < links.length
  · have h0 : links[i]? = some links[i] := List.getElem?_eq_getElem hi
    rw [hpt i _ h0, h0]
    have hr : ¬(n + 1 ≤ i) := by omega
    simp [hr]
  · have h1 : links[i]? = none := List.getElem?_eq_none (by omega)
    have h2 : L[i]? = none := List.getElem?_eq_none (by omega)
    simp [h1, h2]

theorem lastMatching_mem (s : Int) :
    ∀ (secs : List SectionEl) (x : SectionEl),
      lastMatching s secs = some x → x ∈ secs ∧ sectionMatches s x = true := by
  intro secs
  induction secs with
  | nil => intro x hx; simp [lastMatching] at hx
  | cons sec rest ih =>
    intro x hx
    rw [lastMatching] at hx
    cases hlm : lastMatching s rest with
    | some y =>
      rw [hlm] at hx
      obtain ⟨hy, hmy⟩ := ih y hlm
      cases hx
      exact ⟨List.mem_cons_of_mem _ hy, hmy⟩
    | none =>
      rw [hlm] at hx
      by_cases hm : sectionMatches s sec = true
      · simp [hm] at hx
        subst hx
        exact ⟨List.mem_cons_self _ _, hm⟩
      · simp [hm] at hx

theorem runSections_noMatch (s : Int) :
    ∀ (secs : List SectionEl) (links : List NavLink),
      (∀ sec ∈ secs, sectionMatches s sec = false) →
      runSections s links secs =
        .ok (links, secs.map (fun sec => { sec with showAnimate := false })) := by
  intro secs
  induction secs with
  | nil => intro links _; rfl
  | cons sec rest ih =>
    intro links h
    have h1 : sectionMatches s sec = false := h sec (List.mem_cons_self _ _)
    have h2 := ih links (fun x hx => h x (List.mem_cons_of_mem _ hx))
    simp [runSections, h1, h2]

theorem runSections_ok (s : Int) :
    ∀ (secs : List SectionEl) (links : List NavLink),
      0 < links.length →
      (∀ sec ∈ secs, sectionMatches s sec = true →
        (querySelectorNav sec.id (hrefs links)).isSome = true) →
      runSections s links secs =
        .ok (navAfter s secs links,
          secs.map (fun sec => { sec with showAnimate := sectionMatches s sec })) := by
  intro secs
  induction secs with
  | nil =>
    intro links _ _
    simp [runSections, navAfter, lastMatching]
  | cons sec rest ih =>
    intro links hlen hq
    by_cases hm : sectionMatches s sec = true
    · have hqs : (querySelectorNav sec.id (hrefs links)).isSome = true :=
        hq sec (List.mem_cons_self _ _) hm
      obtain ⟨t, ht⟩ := Option.isSome_iff_exists.mp hqs
      have hnav := navLoop_ok sec.id links t hlen ht
      have hlen1 : 0 < (navResult links t).length := by
        rw [navResult_length]
        exact hlen
      have hq1 : ∀ x ∈ rest, sectionMatches s x = true →
          (querySelectorNav x.id (hrefs (navResult links t))).isSome = true := by
        intro x hx hmx
        rw [hrefs_navResult]
        exact hq x (List.mem_cons_of_mem _ hx) hmx
      have h2 := ih (navResult links t) hlen1 hq1
      simp only [runSections, hm, if_true, hnav, h2]
      refine congrArg Except.ok (Prod.ext ?_ ?_)
      · cases hlm : lastMatching s rest with
        | none => simp [navAfter, lastMatching, hlm, hm, ht]
        | some secL =>
          cases hq2 : querySelectorNav secL.id (hrefs links) with
          | none =>
            obtain ⟨hmem, hmL⟩ := lastMatching_mem s rest secL hlm
            have := hq secL (List.mem_cons_of_mem _ hmem) hmL
            rw [hq2] at this
            simp at this
          | some t2 =>
            simp [navAfter, lastMatching, hlm, hrefs_navResult, hq2,
              navResult_navResult]
      · simp [hm]
    · have hm' : sectionMatches s sec = false := by
        simpa using hm
      have h2 := ih links hlen (fun x hx hmx => hq x (List.mem_cons_of_mem _ hx) hmx)
      simp only [runSections, hm', Bool.false_eq_true, if_false, h2]
      refine congrArg Except.ok (Prod.ext ?_ ?_)
      · cases hlm : lastMatching s rest <;>
          simp [navAfter, lastMatching, hlm, hm']
      · simp [hm']

/-- Claim C1 amended: when every matching section has a nav link whose
href contains its id and at least one nav link exists, the handler
completes; every matching section (not only the first) receives the
show-animate class, and the active class goes to the nav link selected
for the LAST matching section in document order, all other links being
cleared. -/
theorem onscroll_last_match (s ihh sh : Int) (d : Dom)
    (hlen : 0 < d.navlinks.length)
    (hq : ∀ sec ∈ d.sections, sectionMatches s sec = true →
      (querySelectorNav sec.id (hrefs d.navlinks)).isSome = true) :
    ∃ d', onscroll s ihh sh d = .ok d' ∧
      d'.sections = d.sections.map
        (fun sec => { sec with showAnimate := sectionMatches s sec }) ∧
      d'.navlinks = navAfter s d.sections d.navlinks ∧
      ∀ secL t, lastMatching s d.sections = some secL →
        querySelectorNav secL.id (hrefs d.navlinks) = some t →
        ∀ i l, d'.navlinks[i]? = some l → l.active = decide (i = t) := by
  have hrs := runSections_ok s d.sections d.navlinks hlen hq
  refine ⟨{ d with
      navlinks := navAfter s d.sections d.navlinks
      sections := d.sections.map
        (fun sec => { sec with showAnimate := sectionMatches s sec })
      sticky := decide (s > 100)
      menuX := false
      navbarActive := false
      footerShow := decide (ihh + s ≥ sh) }, ?_, rfl, rfl, ?_⟩
  · rw [onscroll, hrs]
  · intro secL t hlm hqt i l hil
    have h1 : (navResult d.navlinks t)[i]? = some l := by
      simpa [navAfter, hlm, hqt] using hil
    rw [navResult_getElem?] at h1
    obtain ⟨l0, _, hl⟩ := Option.map_eq_some'.mp h1
    subst hl
    rfl

/-- Claim C1 amended witness: a single matching section with its own nav
link. -/
theorem onscroll_last_match_witness :
    ∃ d', onscroll 60 800 2000 wDom1 = .ok d' ∧
      d'.sections = wDom1.sections.map
        (fun sec => { sec with showAnimate := sectionMatches 60 sec }) ∧
      d'.navlinks = navAfter 60 wDom1.sections wDom1.navlinks ∧
      ∀ secL t, lastMatching 60 wDom1.sections = some secL →
        querySelectorNav secL.id (hrefs wDom1.navlinks) = some t →
        ∀ i l, d'.navlinks[i]? = some l → l.active = decide (i = t) :=
  onscroll_last_match 60 800 2000 wDom1 (by decide) (by decide)

/-- Claim C3 amended: when no section matches, the handler completes,
every section loses the show-animate class, but the nav links keep their
previous active state untouched; the header and footer indicators are
still recomputed. -/
theorem onscroll_keeps_navlinks (s ihh sh : Int) (d : Dom)
    (h : ∀ sec ∈ d.sections, sectionMatches s sec = false) :
    ∃ d', onscroll s ihh sh d = .ok d' ∧
      d'.navlinks = d.navlinks ∧
      d'.sections = d.sections.map
        (fun sec => { sec with showAnimate := false }) ∧
      d'.sticky = decide (s > 100) ∧
      d'.footerShow = decide (ihh + s ≥ sh) := by
  have hrs := runSections_noMatch s d.sections d.navlinks h
  refine ⟨{ d with
      navlinks := d.navlinks
      sections := d.sections.map (fun sec => { sec with showAnimate := false })
      sticky := decide (s > 100)
      menuX := false
      navbarActive := false
      footerShow := decide (ihh + s ≥ sh) }, ?_, rfl, rfl, rfl, rfl⟩
  rw [onscroll, hrs]

/-- Claim C3 amended witness: the no-match state cexDom3. -/
theorem onscroll_keeps_navlinks_witness :
    ∃ d', onscroll 0 800 2000 cexDom3 = .ok d' ∧
      d'.navlinks = cexDom3.navlinks ∧
      d'.sections = cexDom3.sections.map
        (fun sec => { sec with showAnimate := false }) ∧
      d'.sticky = decide ((0 : Int) > 100) ∧
      d'.footerShow = decide ((800 : Int) + 0 ≥ 2000) :=
  onscroll_keeps_navlinks 0 800 2000 cexDom3 (by decide)

/-- Claim C4 amended: a section ends marked exactly when its interval test
succeeds, so the number of marked sections equals the number of matching
sections; in particular at most one section is marked whenever at most one
section matches, and none when none matches. -/
theorem onscroll_marked_count (s ihh sh : Int) (d : Dom)
    (hlen : 0 < d.navlinks.length)
    (hq : ∀ sec ∈ d.sections, sectionMatches s sec = true →
      (querySelectorNav sec.id (hrefs d.navlinks)).isSome = true) :
    ∃ d', onscroll s ihh sh d = .ok d' ∧
      d'.sections.countP (fun sec => sec.showAnimate) =
        d.sections.countP (fun sec => sectionMatches s sec) ∧
      (d.sections.countP (fun sec => sectionMatches s sec) ≤ 1 →
        d'.sections.countP (fun sec => sec.showAnimate) ≤ 1) := by
  have hrs := runSections_ok s d.sections d.navlinks hlen hq
  have hc : (d.sections.map
      (fun sec => { sec with showAnimate := sectionMatches s sec })).countP
        (fun sec => sec.showAnimate) =
      d.sections.countP (fun sec => sectionMatches s sec) := by
    rw [List.countP_map]
    rfl
  refine ⟨{ d with
      navlinks := navAfter s d.sections d.navlinks
      sections := d.sections.map
        (fun sec => { sec with showAnimate := sectionMatches s sec })
      sticky := decide (s > 100)
      menuX := false
      navbarActive := false
      footerShow := decide (ihh + s ≥ sh) }, ?_, hc, fun h1 => hc ▸ h1⟩
  rw [onscroll, hrs]

/-- Claim C4 amended witness: the overlapping pair cexDom4. -/
theorem onscroll_marked_count_witness :
    ∃ d', onscroll 60 800 2000 cexDom4 = .ok d' ∧
      d'.sections.countP (fun sec => sec.showAnimate) =
        cexDom4.sections.countP (fun sec => sectionMatches 60 sec) ∧
      (cexDom4.sections.countP (fun sec => sectionMatches 60 sec) ≤ 1 →
        d'.sections.countP (fun sec => sec.showAnimate) ≤ 1) :=
  onscroll_marked_count 60 800 2000 cexDom4 (by decide) (by decide)

/-- Claim C9 amended: the nav link selected by the handler for a section
id is the FIRST link in document order whose href contains the id as a
substring, and the completed inner loop leaves exactly that link
active. -/
theorem navLoop_first_substring (id : String) (links : List NavLink)
    (t : Nat) (hlen : 0 < links.length)
    (hq : querySelectorNav id (hrefs links) = some t) :
    navLoop id links = .ok (navResult links t) ∧
      (∃ hx, (hrefs links)[t]? = some hx ∧ strContains hx id = true) ∧
      (∀ j, j < t → ∀ hx, (hrefs links)[j]? = some hx →
        strContains hx id = false) ∧
      ∀ i l, (navResult links t)[i]? = some l → l.active = decide (i = t) := by
  obtain ⟨hex, hfirst⟩ := querySelectorNav_spec id (hrefs links) t hq
  refine ⟨navLoop_ok id links t hlen hq, hex, hfirst, ?_⟩
  intro i l hil
  rw [navResult_getElem?] at hil
  obtain ⟨l0, _, hl⟩ := Option.map_eq_some'.mp hil
  subst hl
  rfl

/-- Claim C9 amended witness: id home against the links of cexDom9, where
the decoy link at index 0 is selected. -/
theorem navLoop_first_substring_witness :
    navLoop "home" cexDom9.navlinks = .ok (navResult cexDom9.navlinks 0) ∧
      (∃ hx, (hrefs cexDom9.navlinks)[0]? = some hx ∧
        strContains hx "home" = true) ∧
      (∀ j, j < 0 → ∀ hx, (hrefs cexDom9.navlinks)[j]? = some hx →
        strContains hx "home" = false) ∧
      ∀ i l, (navResult cexDom9.navlinks 0)[i]? = some l →
        l.active = decide (i = 0) :=
  navLoop_first_substring "home" cexDom9.navlinks 0 (by decide) (by decide)
